import Mathlib

/-!
Verification of the task_manager record persistence and consistency engine.

The Python source operates on two backing text files. We embed the engine
shallowly: a file is a `List String` of its lines, a task record is the
7-tuple a 7-field line parses to, and each engine operation is a Lean
function from the current record set (plus the operation's inputs) to the
resulting record set together with its observable outcome (found flag,
error message, events). Loops over the record list are rendered as
structural recursion in file order. String primitives (`strip`, `split`,
`lower`, `int`) are modelled by structurally recursive functions over the
character list of the string, so that every definition evaluates by kernel
reduction.
-/

namespace TaskManager

/-! ### String primitives -/

/-- Drop leading whitespace characters. -/
def dropLeadingWs : List Char → List Char
  | [] => []
  | c :: rest => if c.isWhitespace then dropLeadingWs rest else c :: rest

/-- Python `str.strip()` on the character list: remove leading and
trailing whitespace. -/
def trimChars (l : List Char) : List Char :=
  dropLeadingWs (dropLeadingWs l.reverse).reverse

/-- Python `s.split(", ")` on the character list: split on each
non-overlapping occurrence of the two-character separator `", "`, scanning
left to right. -/
def splitCommaSpace : List Char → List (List Char)
  | ',' :: ' ' :: rest => [] :: splitCommaSpace rest
  | c :: rest =>
    match splitCommaSpace rest with
    | [] => [[c]]
    | h :: t => (c :: h) :: t
  | [] => [[]]

/-- Python `s.split("-")` on the character list. -/
def splitDash : List Char → List (List Char)
  | '-' :: rest => [] :: splitDash rest
  | c :: rest =>
    match splitDash rest with
    | [] => [[c]]
    | h :: t => (c :: h) :: t
  | [] => [[]]

/-- Parse a non-empty all-digit character list as a natural number. -/
def parseNatChars : List Char → Option Nat
  | [] => none
  | l => go l 0
where
  go : List Char → Nat → Option Nat
    | [], acc => some acc
    | c :: rest, acc =>
      if c.isDigit then go rest (acc * 10 + (c.toNat - '0'.toNat)) else none

/-- Python `int(s)`: strips surrounding whitespace, accepts an optional
sign followed by digits; anything else raises `ValueError`, modelled as
`none`. (Python additionally allows underscore digit separators between
digits; none of the inputs considered here use them.) -/
def pyParseInt (s : String) : Option Int :=
  match trimChars s.data with
  | '-' :: rest => (parseNatChars rest).map (fun n => -(n : Int))
  | '+' :: rest => (parseNatChars rest).map (fun n => (n : Int))
  | l => (parseNatChars l).map (fun n => (n : Int))

/-- `line.strip().split(", ")`: the field split applied to every line of a
backing file. -/
def splitFields (line : String) : List String :=
  (splitCommaSpace (trimChars line.data)).map String.mk

/-- Python `s.strip().lower()`, as the source applies it to the
`complete` field before comparing with `"yes"` / `"no"`. -/
def stripLower (s : String) : String :=
  String.mk ((trimChars s.data).map Char.toLower)

/-! ### Data model -/

/-- A task record: the 7-tuple
`(task_id, username, title, description, due_date, assigned_date, complete)`
that one 7-field line of `task.txt` parses to. All fields are kept as raw
strings, exactly as the Python code does. -/
structure Task where
  id : String
  username : String
  title : String
  description : String
  due_date : String
  assigned_date : String
  complete : String
deriving DecidableEq, Repr

/-- A user record: `username, password, role` from a 3-field line of
`user.txt`. -/
structure User where
  username : String
  password : String
  role : String
deriving DecidableEq, Repr

/-- `tuple(task_data)` for a field list already known to have 7 entries. -/
def fieldsToTask (fs : List String) : Task :=
  ⟨fs.getD 0 "", fs.getD 1 "", fs.getD 2 "", fs.getD 3 "",
   fs.getD 4 "", fs.getD 5 "", fs.getD 6 ""⟩

/-! ### Record store -/

/-- `read_all_tasks()` (task_manager.py lines 524-538): keep exactly the
lines that split into 7 comma-space-separated fields, in file order; all
other lines are skipped. (A missing file yields `[]`, modelled by the
empty line list.) -/
def read_all_tasks : List String → List Task
  | [] => []
  | line :: rest =>
    let task_data := splitFields line
    if task_data.length = 7 then fieldsToTask task_data :: read_all_tasks rest
    else read_all_tasks rest

/-- Serialisation of one task, `", ".join(task_data)` (write_all_tasks,
lines 541-555). -/
def taskToLine (t : Task) : String :=
  t.id ++ ", " ++ t.username ++ ", " ++ t.title ++ ", " ++ t.description ++
    ", " ++ t.due_date ++ ", " ++ t.assigned_date ++ ", " ++ t.complete

/-- `write_all_tasks(tasks)`: full overwrite of the task file. The source
guards each row with `len(task_data) == 7`, which always holds for a
`Task` record. -/
def write_all_tasks (tasks : List Task) : List String :=
  tasks.map taskToLine

/-- The accumulator loop of `get_next_task_id()` (lines 436-455): scan
every line, and on each 7-field line whose first field parses as an
integer, take the max with the accumulator `max_id` (initially 0). -/
def get_next_task_id_loop : List String → Int → Int
  | [], max_id => max_id
  | line :: rest, max_id =>
    let task_data := splitFields line
    if task_data.length = 7 then
      match pyParseInt (task_data.headD "") with
      | some task_id => get_next_task_id_loop rest (max max_id task_id)
      | none => get_next_task_id_loop rest max_id
    else get_next_task_id_loop rest max_id

/-- `get_next_task_id()` on an existing task file: `max_id + 1` where
`max_id` is the maximum parsed id (0 when none parses). A missing file
returns 1, which coincides with the empty line list here. -/
def get_next_task_id (lines : List String) : Int :=
  get_next_task_id_loop lines 0 + 1

/-- The integer task ids visible in a task file: the first field of each
7-field line, whenever it parses as an integer. -/
def lineTaskIds : List String → List Int
  | [] => []
  | line :: rest =>
    let task_data := splitFields line
    if task_data.length = 7 then
      match pyParseInt (task_data.headD "") with
      | some task_id => task_id :: lineTaskIds rest
      | none => lineTaskIds rest
    else lineTaskIds rest

/-- Result of a Python computation that may raise: either a value or the
raised/printed error message. -/
inductive PyResult (α : Type) where
  | ok (a : α)
  | raised (msg : String)
deriving DecidableEq, Repr

/-! ### Task lifecycle operations

Each mutating operation reads the whole task list, scans it in file order,
and rewrites the whole list only when its `found` flag was set. The scan
loops are rendered as structural recursion in file order.
-/

/-- The scan loop of `delete_task()` (lines 1142-1149): a task is dropped
when its id **or** its title equals the identifier (setting `found`);
every other task is kept. Returns `(found, updated_tasks)`. -/
def delete_task_scan (task_identifier : String) : List Task → Bool × List Task
  | [] => (false, [])
  | task_data :: rest =>
    let r := delete_task_scan task_identifier rest
    if task_data.id = task_identifier ∨ task_data.title = task_identifier then
      (true, r.2)
    else (r.1, task_data :: r.2)

/-- `delete_task()` effect on the stored task list (lines 1151-1160): the
scan result is written only when a task was found; otherwise the file is
left as it was and a not-found error is reported. Returns
`(found, stored_tasks_after)`. -/
def delete_task_op (tasks : List Task) (task_identifier : String) :
    Bool × List Task :=
  let r := delete_task_scan task_identifier tasks
  if r.1 then (true, r.2) else (false, tasks)

/-- The scan loop of `update_task_complete()` (lines 1050-1061): each task
whose id equals the given id has its `complete` field set to `"Yes"` and
sets `task_found`; every task is appended to the updated list. -/
def update_task_complete_scan (task_id : String) : List Task → Bool × List Task
  | [] => (false, [])
  | td :: rest =>
    let r := update_task_complete_scan task_id rest
    if td.id = task_id then (true, { td with complete := "Yes" } :: r.2)
    else (r.1, td :: r.2)

/-- `update_task_complete()` effect on the stored task list (lines
1063-1068): written only when found, else unchanged with a not-found
error. -/
def update_task_complete_op (tasks : List Task) (task_id : String) :
    Bool × List Task :=
  let r := update_task_complete_scan task_id tasks
  if r.1 then (true, r.2) else (false, tasks)

/-- Outcome of one `reset_task_incomplete()` scan (lines 1088-1104):
`task_found` is set only when a matching task was actually flipped from
complete to incomplete; `already_incomplete_ids` records each matching
task that was reported as already incomplete (INFO branch). -/
structure ResetScan where
  task_found : Bool
  updated_tasks : List Task
  already_incomplete_ids : List String
deriving DecidableEq, Repr

/-- The scan loop of `reset_task_incomplete()` (lines 1088-1104): on an id
match, if the task's `complete` strips-and-lowers to `"yes"` it becomes
`"No"` and `task_found` is set; otherwise the task is reported already
incomplete and `task_found` is **not** set. -/
def reset_task_incomplete_scan (task_id : String) : List Task → ResetScan
  | [] => ⟨false, [], []⟩
  | t :: rest =>
    let r := reset_task_incomplete_scan task_id rest
    if t.id = task_id then
      if stripLower t.complete = "yes" then
        ⟨true, { t with complete := "No" } :: r.updated_tasks,
         r.already_incomplete_ids⟩
      else
        ⟨r.task_found, t :: r.updated_tasks, t.id :: r.already_incomplete_ids⟩
    else ⟨r.task_found, t :: r.updated_tasks, r.already_incomplete_ids⟩

/-- Full outcome of `reset_task_incomplete()` (lines 1106-1113): the file
is rewritten only when `task_found`; the not-found ERROR is printed
exactly when `task_found` is false — note the source tests `task_found`,
not whether the id occurred. -/
structure ResetOutcome where
  stored_tasks : List Task
  already_incomplete_ids : List String
  not_found_reported : Bool
deriving DecidableEq, Repr

/-- `reset_task_incomplete()` effect on the stored task list and its
reported messages (lines 1083-1113). -/
def reset_task_incomplete_op (tasks : List Task) (task_id : String) :
    ResetOutcome :=
  let r := reset_task_incomplete_scan task_id tasks
  if r.task_found then ⟨r.updated_tasks, r.already_incomplete_ids, false⟩
  else ⟨tasks, r.already_incomplete_ids, true⟩

/-- The status flip of the toggle branch of `view_my_tasks()` (line 719):
`new_status = "No" if complete == "Yes" else "Yes"`. -/
def toggle_status (complete : String) : String :=
  if complete = "Yes" then "No" else "Yes"

/-- The update loop of the toggle branch (lines 722-730): every task whose
id equals the selected id gets the precomputed `new_status`; the whole
list is then rewritten. `sel_complete` is the `complete` field of the
selected task's snapshot, from which `new_status` is computed once. -/
def toggle_status_op (tasks : List Task) (sel_id sel_complete : String) :
    List Task :=
  let new_status := toggle_status sel_complete
  tasks.map (fun t => if t.id = sel_id then { t with complete := new_status } else t)

/-- The update loop of the edit branch of `view_my_tasks()` (lines
784-794): every task whose id equals the selected id has its username and
due date replaced by the precomputed new values, and `task_updated` is
set; other tasks are kept as they are. -/
def edit_task_scan (sel_id new_username new_due_date : String) :
    List Task → List Task × Bool
  | [] => ([], false)
  | t :: rest =>
    let r := edit_task_scan sel_id new_username new_due_date rest
    if t.id = sel_id then
      ({ t with username := new_username, due_date := new_due_date } :: r.1,
       true)
    else (t :: r.1, r.2)

/-- The edit branch of `view_my_tasks()` (lines 739-822). `sel` is the
selected task's snapshot; `new_owner` / `new_due` are `some v` when the
corresponding field was supplied (edit options 1/2/3), `none` when left
alone (the source then keeps the snapshot's current value). Errors carry
the printed message; `.ok` carries the stored task list afterwards (the
scan result is written only when `task_updated` was set). -/
def edit_task_op (tasks : List Task) (sel : Task)
    (new_owner new_due : Option String) : PyResult (List Task) :=
  if stripLower sel.complete = "yes" then
    .raised "Cannot edit a completed task. Please mark it as incomplete first."
  else
    let new_username := new_owner.getD sel.username
    let new_due_date := new_due.getD sel.due_date
    let scan := edit_task_scan sel.id new_username new_due_date tasks
    if scan.2 then .ok scan.1 else .ok tasks

/-! ### Authentication -/

/-- Result of `login_user()` (lines 228-269): a `User` on success, or the
exact error message printed on failure. -/
inductive LoginResult where
  | success (u : User)
  | failure (msg : String)
deriving DecidableEq, Repr

/-- The invalid-credentials message printed by `login_user()` (line 255),
identical for an unknown username and for a wrong password. -/
def invalidLoginMsg : String := "Invalid username or password. Please try again."

/-- `login_user()` (lines 238-258) on an existing user file: scan lines in
order; the first 3-field line whose username and password both match
yields success; if the loop finishes, the single invalid-credentials
error is reported. -/
def login_user (username password : String) : List String → LoginResult
  | [] => .failure invalidLoginMsg
  | line :: rest =>
    let user_data := splitFields line
    if user_data.length = 3 then
      let file_username := user_data.getD 0 ""
      let file_password := user_data.getD 1 ""
      let role := user_data.getD 2 ""
      if file_username = username ∧ file_password = password then
        .success ⟨file_username, file_password, role⟩
      else login_user username password rest
    else login_user username password rest

/-! ### Dates and report aggregation -/

/-- A calendar date, as produced by `datetime.strptime(s, "%Y-%m-%d").date()`. -/
structure Date where
  year : Nat
  month : Nat
  day : Nat
deriving DecidableEq, Repr

/-- Python date comparison `<`: lexicographic on (year, month, day). -/
def Date.lt (a b : Date) : Bool :=
  a.year < b.year ∨ (a.year = b.year ∧
    (a.month < b.month ∨ (a.month = b.month ∧ a.day < b.day)))

/-- Gregorian leap-year rule, as `datetime` uses for validating days. -/
def isLeapYear (y : Nat) : Bool :=
  (y % 4 = 0 ∧ y % 100 ≠ 0) ∨ y % 400 = 0

/-- Days in a month, as `datetime` uses for validating days. -/
def daysInMonth (y m : Nat) : Nat :=
  if m = 2 then (if isLeapYear y then 29 else 28)
  else if m = 4 ∨ m = 6 ∨ m = 9 ∨ m = 11 then 30
  else 31

/-- `datetime.strptime(s, "%Y-%m-%d").date()`: three dash-separated
all-digit components forming a valid calendar date; anything else raises
`ValueError`, modelled as `none`. -/
def parseDate (s : String) : Option Date :=
  match (splitDash s.data).map parseNatChars with
  | [some y, some m, some d] =>
    if 1 ≤ m ∧ m ≤ 12 ∧ 1 ≤ d ∧ d ≤ daysInMonth y m then some ⟨y, m, d⟩
    else none
  | _ => none

/-- The task-overview overdue loop of `generate_reports()` (lines
916-925): count incomplete tasks whose due date parses and is before the
current date; a `ValueError` from `strptime` is caught and the task is
skipped (`continue`). -/
def overdue_tasks_count (current_date : Date) : List Task → Nat
  | [] => 0
  | task :: rest =>
    if stripLower task.complete = "no" then
      match parseDate task.due_date with
      | some due_date =>
        (if Date.lt due_date current_date then 1 else 0) +
          overdue_tasks_count current_date rest
      | none => overdue_tasks_count current_date rest
    else overdue_tasks_count current_date rest

/-- The per-user overdue generator of `generate_reports()` (lines
969-970): `sum(1 for t in user_tasks if t[6].strip().lower() == "no" and
strptime(t[4], "%Y-%m-%d").date() < current_date)`. There is **no**
try/except here: a `ValueError` from `strptime` propagates out of the
generator, modelled as `.raised`. -/
def user_overdue_count (current_date : Date) : List Task → PyResult Nat
  | [] => .ok 0
  | t :: rest =>
    if stripLower t.complete = "no" then
      match parseDate t.due_date with
      | none => .raised "ValueError"
      | some d =>
        match user_overdue_count current_date rest with
        | .raised e => .raised e
        | .ok n => .ok ((if Date.lt d current_date then 1 else 0) + n)
    else user_overdue_count current_date rest

/-- Per-user task selection in `generate_reports()` (line 965):
`[t for t in tasks if t[1] == user]`. -/
def user_tasks_of (tasks : List Task) (user : String) : List Task :=
  tasks.filter (fun t => t.username = user)

/-! ### File events

To state the backup-before-destructive-write property we record, for one
invocation of each mutating operation, the ordered list of file events it
performs on the task file: the backup attempt (with its success flag,
which `backup_file` returns and every caller ignores) and the full
rewrite by `write_all_tasks`.
-/

/-- A file-level event on the task backing file. -/
inductive Event where
  | backupAttempt (ok : Bool)
  | writeTasks
deriving DecidableEq, Repr

/-- One invocation of `delete_task()` (lines 1124-1160): `backup_file` is
called first, unconditionally; the rewrite happens only when a matching
task was found. `backup_ok` is the ignored return value of
`backup_file`. -/
def delete_task_events (backup_ok : Bool) (tasks : List Task)
    (task_identifier : String) : List Event :=
  let r := delete_task_scan task_identifier tasks
  if r.1 then [.backupAttempt backup_ok, .writeTasks]
  else [.backupAttempt backup_ok]

/-- One invocation of `update_task_complete()` (lines 1035-1068): no
backup call anywhere; the rewrite happens only when found. -/
def update_task_complete_events (tasks : List Task) (task_id : String) :
    List Event :=
  let r := update_task_complete_scan task_id tasks
  if r.1 then [.writeTasks] else []

/-- One invocation of `reset_task_incomplete()` (lines 1074-1113): no
backup call anywhere; the rewrite happens only when `task_found`. -/
def reset_task_incomplete_events (tasks : List Task) (task_id : String) :
    List Event :=
  let r := reset_task_incomplete_scan task_id tasks
  if r.task_found then [.writeTasks] else []

/-- One invocation of the toggle branch of `view_my_tasks()` (lines
717-737): no backup call; the rewrite is unconditional. -/
def toggle_status_events (_tasks : List Task) (_sel_id _sel_complete : String) :
    List Event :=
  [.writeTasks]

/-! ### Derived predicates -/

/-- The match test of `delete_task()` (line 1145): id **or** title equals
the identifier. -/
def delete_matches (task_identifier : String) (t : Task) : Bool :=
  t.id = task_identifier || t.title = task_identifier

/-- A user line that `login_user()` would consider for the given
username: 3 fields whose first is the username. -/
def line_matches_user (username line : String) : Bool :=
  (splitFields line).length = 3 && (splitFields line).getD 0 "" = username

/-- A user line on which `login_user()` succeeds for the given
credentials: considered for the username with matching password. -/
def line_matches_login (username password line : String) : Bool :=
  line_matches_user username line && (splitFields line).getD 1 "" = password

/-! ### Concrete fixtures

Small task sets used by witnesses and counterexamples.
-/

/-- An incomplete task with id 1. -/
def task1 : Task := ⟨"1", "alice", "T1", "D1", "2025-01-01", "2025-01-01", "No"⟩

/-- An incomplete task with id 2. -/
def task2 : Task := ⟨"2", "alice", "T2", "D2", "2025-01-02", "2025-01-01", "No"⟩

/-- A task whose **title** is the string "2" while its id is "1". -/
def taskTitled2 : Task := ⟨"1", "alice", "2", "D1", "2025-01-01", "2025-01-01", "No"⟩

/-- An incomplete task whose due date does not parse as a date. -/
def taskBadDate : Task := ⟨"1", "alice", "T", "D", "bad-date", "2025-01-01", "No"⟩

/-- A completed task with id 1. -/
def taskDone : Task := ⟨"1", "alice", "T1", "D1", "2025-01-01", "2025-01-01", "Yes"⟩

/-! ### Helper lemmas -/

/-- The `get_next_task_id` accumulator loop is a left fold of `max` over
the parsed ids. -/
theorem get_next_task_id_loop_eq_foldl (lines : List String) :
    ∀ a : Int, get_next_task_id_loop lines a = (lineTaskIds lines).foldl max a := by
  induction lines with
  | nil => intro a; rfl
  | cons line rest ih =>
    intro a
    simp only [get_next_task_id_loop, lineTaskIds]
    split
    · cases hp : pyParseInt ((splitFields line).headD "") with
      | none => simp [ih]
      | some v => simp [ih]
    · simp [ih]

/-- A left fold of `max` never drops below its initial accumulator. -/
theorem le_foldl_max_init (l : List Int) : ∀ a : Int, a ≤ l.foldl max a := by
  induction l with
  | nil => intro a; simp
  | cons x rest ih =>
    intro a
    exact le_trans (le_max_left a x) (ih (max a x))

/-- Every member of a list is bounded by the left fold of `max` over it. -/
theorem mem_le_foldl_max (l : List Int) (n : Int) (h : n ∈ l) :
    ∀ a : Int, n ≤ l.foldl max a := by
  induction l with
  | nil => cases h
  | cons x rest ih =>
    intro a
    rcases List.mem_cons.mp h with h1 | h2
    · subst h1
      exact le_trans (le_max_right a n) (le_foldl_max_init rest (max a n))
    · exact ih h2 (max a x)

/-- The delete scan keeps exactly the non-matching tasks and sets `found`
iff some task matches by id or title. -/
theorem delete_task_scan_eq (task_identifier : String) (tasks : List Task) :
    delete_task_scan task_identifier tasks =
      (tasks.any (delete_matches task_identifier),
       tasks.filter (fun t => ! delete_matches task_identifier t)) := by
  induction tasks with
  | nil => rfl
  | cons t rest ih =>
    simp only [delete_task_scan, ih, List.any_cons, List.filter_cons,
      delete_matches]
    by_cases h1 : t.id = task_identifier
    · simp [h1]
    · by_cases h2 : t.title = task_identifier <;> simp [h1, h2]

/-- The edit scan maps the username/due-date update over the id matches
and sets `task_updated` iff some task has the selected id. -/
theorem edit_task_scan_eq (sel_id nu nd : String) (tasks : List Task) :
    edit_task_scan sel_id nu nd tasks =
      (tasks.map (fun t => if t.id = sel_id then
         { t with username := nu, due_date := nd } else t),
       tasks.any (fun t => t.id = sel_id)) := by
  induction tasks with
  | nil => rfl
  | cons t rest ih =>
    simp only [edit_task_scan, ih, List.map_cons, List.any_cons]
    by_cases h : t.id = sel_id <;> simp [h]

/-- When no task has the given id, the mark-complete scan finds nothing
and returns the list unchanged. -/
theorem update_scan_not_found (task_id : String) (tasks : List Task)
    (h : ∀ t ∈ tasks, t.id ≠ task_id) :
    update_task_complete_scan task_id tasks = (false, tasks) := by
  induction tasks with
  | nil => rfl
  | cons t rest ih =>
    have ht : t.id ≠ task_id := h t (List.mem_cons_self t rest)
    simp only [update_task_complete_scan, if_neg ht]
    rw [ih (fun x hx => h x (List.mem_cons_of_mem t hx))]

/-- When no task has the given id, the reset scan finds nothing, reports
nothing as already incomplete, and returns the list unchanged. -/
theorem reset_scan_not_found (task_id : String) (tasks : List Task)
    (h : ∀ t ∈ tasks, t.id ≠ task_id) :
    reset_task_incomplete_scan task_id tasks = ⟨false, tasks, []⟩ := by
  induction tasks with
  | nil => rfl
  | cons t rest ih =>
    have ht : t.id ≠ task_id := h t (List.mem_cons_self t rest)
    simp only [reset_task_incomplete_scan, if_neg ht]
    rw [ih (fun x hx => h x (List.mem_cons_of_mem t hx))]

/-- When no task matches by id or title, the delete scan finds nothing
and returns the list unchanged. -/
theorem delete_scan_not_found (task_identifier : String) (tasks : List Task)
    (h : ∀ t ∈ tasks, t.id ≠ task_identifier ∧ t.title ≠ task_identifier) :
    delete_task_scan task_identifier tasks = (false, tasks) := by
  induction tasks with
  | nil => rfl
  | cons t rest ih =>
    have ht := h t (List.mem_cons_self t rest)
    simp only [delete_task_scan]
    rw [if_neg (by push_neg; exact ht)]
    rw [ih (fun x hx => h x (List.mem_cons_of_mem t hx))]

/-- On a task list whose incomplete tasks all carry parsable due dates,
the per-user overdue generator returns the value the skipping
task-overview loop computes. -/
theorem user_overdue_eq_overview (d : Date) (l : List Task)
    (h : ∀ t ∈ l, stripLower t.complete = "no" → (parseDate t.due_date).isSome) :
    user_overdue_count d l = .ok (overdue_tasks_count d l) := by
  induction l with
  | nil => rfl
  | cons t rest ih =>
    have ih2 := ih (fun x hx => h x (List.mem_cons_of_mem t hx))
    simp only [user_overdue_count, overdue_tasks_count]
    by_cases hno : stripLower t.complete = "no"
    · rw [if_pos hno, if_pos hno]
      have hs := h t (List.mem_cons_self t rest) hno
      cases hp : parseDate t.due_date with
      | none => rw [hp] at hs; simp at hs
      | some dd => simp [ih2]
    · rw [if_neg hno, if_neg hno]
      exact ih2

/-- If no line of the user file matches both credentials, `login_user`
reports the single invalid-credentials error. -/
theorem login_fails_of_no_match (username password : String) (lines : List String)
    (h : ∀ l ∈ lines, line_matches_login username password l = false) :
    login_user username password lines = .failure invalidLoginMsg := by
  induction lines with
  | nil => rfl
  | cons line rest ih =>
    have hl := h line (List.mem_cons_self line rest)
    have ih2 := ih (fun x hx => h x (List.mem_cons_of_mem line hx))
    simp only [login_user]
    by_cases h3 : (splitFields line).length = 3
    · rw [if_pos h3]
      by_cases hc : (splitFields line).getD 0 "" = username ∧
          (splitFields line).getD 1 "" = password
      · exfalso
        have hm : line_matches_login username password line = true := by
          unfold line_matches_login line_matches_user
          rw [hc.1, hc.2]
          simp [h3]
        rw [hl] at hm
        exact Bool.false_ne_true hm
      · rw [if_neg hc]; exact ih2
    · rw [if_neg h3]; exact ih2

/-- A line not considered for a username is in particular not a login
match for that username under any password. -/
theorem no_user_match_no_login_match (username password line : String)
    (h : line_matches_user username line = false) :
    line_matches_login username password line = false := by
  unfold line_matches_login
  rw [h]
  rfl

/-! ### Claim C1 -/

/-- Claim C1 counterexample: deleting the task holding the current
maximum id ("2") from a two-task file makes `get_next_task_id` return 2 —
an id that was assigned (it is among the ids of the original file) and
was freed by the deletion, so freed ids **are** reused. -/
theorem nextId_reuse_after_delete_max :
    (2 : Int) ∈ lineTaskIds (write_all_tasks [task1, task2]) ∧
    get_next_task_id (write_all_tasks
      (delete_task_op (read_all_tasks (write_all_tasks [task1, task2])) "2").2) = 2 := by
  decide

/-- Claim C1 (amended): for every task file content, `get_next_task_id`
is strictly greater than every integer id currently present among the
file's 7-field lines (it is the current maximum plus one). Ids freed by
deleting the current maximum-id task are **not** protected and can be
reused, since the scan sees only the current task set. -/
theorem nextId_gt_all_current_ids (lines : List String) (n : Int)
    (h : n ∈ lineTaskIds lines) : n < get_next_task_id lines := by
  have h1 : n ≤ get_next_task_id_loop lines 0 := by
    rw [get_next_task_id_loop_eq_foldl]
    exact mem_le_foldl_max _ n h 0
  have h2 : get_next_task_id lines = get_next_task_id_loop lines 0 + 1 := rfl
  omega

/-- Witness for `nextId_gt_all_current_ids` at a concrete two-task file. -/
theorem nextId_gt_all_current_ids_witness :
    (2 : Int) ∈ lineTaskIds (write_all_tasks [task1, task2]) ∧
    (2 : Int) < get_next_task_id (write_all_tasks [task1, task2]) :=
  ⟨by decide, nextId_gt_all_current_ids _ 2 (by decide)⟩

/-! ### Claim C2 -/

/-- Claim C2 counterexample: with a task whose **title** is "2" (id "1")
and a task whose **id** is "2", deleting identifier "2" removes **both**
tasks. The claim predicts an id-first match deleting exactly the id-"2"
task and leaving the title-"2" task in the set. -/
theorem delete_removes_all_matches_cex :
    taskTitled2.id ≠ "2" ∧ taskTitled2.title = "2" ∧ task2.id = "2" ∧
    delete_task_op [taskTitled2, task2] "2" = (true, []) := by
  decide

/-- Claim C2 (amended): `delete_task` tests each task's id **and** title
against the identifier in a single pass (no id-first priority) and
removes **every** matching task, keeping exactly the tasks matching
neither; when precisely one task matches, exactly that task is removed.
`found` is set iff some task matches. -/
theorem delete_task_removes_id_or_title_matches (tasks : List Task)
    (task_identifier : String) :
    delete_task_op tasks task_identifier =
      (tasks.any (delete_matches task_identifier),
       tasks.filter (fun t => ! delete_matches task_identifier t)) := by
  unfold delete_task_op
  rw [delete_task_scan_eq]
  by_cases h : tasks.any (delete_matches task_identifier) = true
  · simp [h]
  · have h' : tasks.any (delete_matches task_identifier) = false :=
      Bool.eq_false_iff.mpr h
    have hf : tasks.filter (fun t => ! delete_matches task_identifier t) = tasks := by
      apply List.filter_eq_self.mpr
      intro a ha
      have hm := List.any_eq_false.mp h' a ha
      simp [hm]
    simp [h', hf]

/-! ### Claim C3 -/

/-- Claim C3 code-bug evaluation: for a stored set holding only the
already-incomplete task `task1` (id "1"), `reset_task_incomplete` on id
"1" leaves the store unchanged and reports the task as already
incomplete — but, because `task_found` is only set when a completed task
is flipped, it **additionally** reports the not-found error
(`not_found_reported = true`) and logs a warning about a non-existent
task, contradicting the claim and the source's own messages. -/
theorem reset_already_incomplete_also_reports_not_found :
    stripLower task1.complete ≠ "yes" ∧ task1.id = "1" ∧
    reset_task_incomplete_op [task1] "1" = ⟨[task1], ["1"], true⟩ := by
  decide

/-! ### Claim C4 -/

/-- Claim C4 counterexample: the bulk status edits rewrite the task file
with **no** preceding backup event — `update_task_complete`,
`reset_task_incomplete` and the toggle branch each produce the bare
`writeTasks` event. Only `delete_task` backs up. -/
theorem status_edits_write_without_backup_cex :
    update_task_complete_events [task1] "1" = [Event.writeTasks] ∧
    reset_task_incomplete_events [taskDone] "1" = [Event.writeTasks] ∧
    toggle_status_events [task1] "1" "No" = [Event.writeTasks] := by
  decide

/-- Claim C4 (amended): of the destructive rewrites, only task deletion
is preceded by a backup call: `delete_task` always emits the backup
attempt first, and whether the rewrite follows does not depend on the
backup's success (backup failure does not block the write). The bulk
status edits — mark complete, reset incomplete, toggle — never emit a
backup event. -/
theorem backup_only_before_delete (backup_ok b : Bool) (tasks : List Task)
    (ident tid rid sid scomp : String) :
    (delete_task_events backup_ok tasks ident).head? =
        some (Event.backupAttempt backup_ok)
    ∧ (Event.writeTasks ∈ delete_task_events backup_ok tasks ident ↔
        Event.writeTasks ∈ delete_task_events true tasks ident)
    ∧ Event.backupAttempt b ∉ update_task_complete_events tasks tid
    ∧ Event.backupAttempt b ∉ reset_task_incomplete_events tasks rid
    ∧ Event.backupAttempt b ∉ toggle_status_events tasks sid scomp := by
  refine ⟨?_, ?_, ?_, ?_, ?_⟩
  · by_cases h : (delete_task_scan ident tasks).1 <;>
      simp [delete_task_events, h]
  · by_cases h : (delete_task_scan ident tasks).1 <;>
      simp [delete_task_events, h]
  · by_cases h : (update_task_complete_scan tid tasks).1 <;>
      simp [update_task_complete_events, h]
  · by_cases h : (reset_task_incomplete_scan rid tasks).task_found <;>
      simp [reset_task_incomplete_events, h]
  · simp [toggle_status_events]

/-! ### Claim C5 -/

/-- Claim C5 counterexample: a 7-field line whose id field "abc" is not a
parsable integer is **not** skipped by `read_all_tasks` — it is returned
as a record. The integer check the claim describes exists only in
`get_next_task_id`. -/
theorem read_keeps_unparsable_id_cex :
    pyParseInt "abc" = none ∧
    read_all_tasks ["abc, u, t, d, 2025-01-01, 2025-01-01, No"] =
      [⟨"abc", "u", "t", "d", "2025-01-01", "2025-01-01", "No"⟩] := by
  decide

/-- Claim C5 (amended): for every task file content, `read_all_tasks`
returns exactly the records of the lines that split into 7 comma-space
separated fields, in file order; every other line is silently skipped and
no error is ever raised. Parsability of the id field is **not** required
on load. -/
theorem read_all_tasks_keeps_seven_field_lines (lines : List String) :
    read_all_tasks lines =
      (lines.filter (fun l => (splitFields l).length = 7)).map
        (fun l => fieldsToTask (splitFields l)) := by
  induction lines with
  | nil => rfl
  | cons line rest ih =>
    simp only [read_all_tasks, List.filter_cons]
    by_cases h : (splitFields line).length = 7 <;> simp [h, ih]

/-! ### Claim C6 -/

/-- Claim C6 counterexample: a user with one incomplete task whose due
date does not parse. The task-overview loop skips it (overdue count 0 and
the report completes), but the per-user generator raises `ValueError`,
aborting the user report — the two are **not** computed the same way. -/
theorem user_overdue_raises_on_bad_date_cex :
    user_tasks_of [taskBadDate] "alice" = [taskBadDate] ∧
    overdue_tasks_count ⟨2025, 6, 1⟩ [taskBadDate] = 0 ∧
    user_overdue_count ⟨2025, 6, 1⟩ (user_tasks_of [taskBadDate] "alice") =
      .raised "ValueError" := by
  decide

/-- Claim C6 (amended): the per-user overdue count uses the same status
test and date comparison as the task report, but **without** the
parse-failure skip: whenever every incomplete task of the user has a
parsable due date the two computations agree; an unparsable due date on
an incomplete task raises instead of being skipped. -/
theorem user_overdue_agrees_when_dates_parse (tasks : List Task)
    (user : String) (d : Date)
    (h : ∀ t ∈ user_tasks_of tasks user,
      stripLower t.complete = "no" → (parseDate t.due_date).isSome) :
    user_overdue_count d (user_tasks_of tasks user) =
      .ok (overdue_tasks_count d (user_tasks_of tasks user)) :=
  user_overdue_eq_overview d _ h

/-- Witness for `user_overdue_agrees_when_dates_parse` on a concrete
two-task set owned by "alice". -/
theorem user_overdue_agrees_when_dates_parse_witness :
    user_overdue_count ⟨2025, 6, 1⟩ (user_tasks_of [task1, task2] "alice") =
      .ok (overdue_tasks_count ⟨2025, 6, 1⟩ (user_tasks_of [task1, task2] "alice")) :=
  user_overdue_agrees_when_dates_parse [task1, task2] "alice" ⟨2025, 6, 1⟩
    (by decide)

/-! ### Claim C7 -/

/-- Claim C7: editing a task whose current status is Complete fails with
the edit-locked error regardless of which fields are supplied, and the
stored set is untouched (the error branch writes nothing); editing a task
with status Incomplete applies exactly the supplied fields — the matched
task's username becomes the new owner only when one was supplied, its due
date the new date only when one was supplied — and every other field of
that task and every other task are unchanged. -/
theorem edit_locked_and_partial_update (tasks : List Task) (sel : Task)
    (new_owner new_due : Option String) :
    (stripLower sel.complete = "yes" →
      edit_task_op tasks sel new_owner new_due =
        .raised "Cannot edit a completed task. Please mark it as incomplete first.")
    ∧ (stripLower sel.complete ≠ "yes" →
      (∀ t ∈ tasks, t.id = sel.id → t = sel) →
      edit_task_op tasks sel new_owner new_due =
        .ok (tasks.map (fun t => if t.id = sel.id then
          { t with username := new_owner.getD t.username,
                   due_date := new_due.getD t.due_date } else t))) := by
  constructor
  · intro hy
    unfold edit_task_op
    rw [if_pos hy]
  · intro hy hsel
    unfold edit_task_op
    rw [if_neg hy]
    simp only [edit_task_scan_eq]
    by_cases ha : tasks.any (fun t => t.id = sel.id) = true
    · simp only [ha, if_true]
      congr 1
      apply List.map_congr_left
      intro t ht
      by_cases hid : t.id = sel.id
      · have hts : t = sel := hsel t ht hid
        rw [if_pos hid, if_pos hid, ← hts]
      · rw [if_neg hid, if_neg hid]
    · have ha' : tasks.any (fun t => t.id = sel.id) = false :=
        Bool.eq_false_iff.mpr ha
      simp only [ha', Bool.false_eq_true, if_false]
      congr 1
      have : ∀ t ∈ tasks, t.id ≠ sel.id := by
        intro t ht
        have := List.any_eq_false.mp ha' t ht
        simpa using this
      calc tasks = tasks.map id := (List.map_id tasks).symm
        _ = _ := by
          apply List.map_congr_left
          intro t ht
          rw [if_neg (this t ht)]
          rfl

/-- Witness for `edit_locked_and_partial_update`: the locked case on a
completed task, and the update case reassigning `task1` to "bob". -/
theorem edit_locked_and_partial_update_witness :
    edit_task_op [taskDone] taskDone (some "bob") none =
      .raised "Cannot edit a completed task. Please mark it as incomplete first." ∧
    edit_task_op [task1, task2] task1 (some "bob") none =
      .ok [⟨"1", "bob", "T1", "D1", "2025-01-01", "2025-01-01", "No"⟩, task2] :=
  ⟨(edit_locked_and_partial_update [taskDone] taskDone (some "bob") none).1
      (by decide),
   by
    have h := (edit_locked_and_partial_update [task1, task2] task1
      (some "bob") none).2 (by decide) (by decide)
    rw [h]
    decide⟩

/-! ### Claim C8 -/

/-- Claim C8: for every task of the task set whose status string is one
of the two status values "Yes" / "No", applying the status toggle twice
returns its original status string. -/
theorem toggle_twice_restores_status (tasks : List Task) (t : Task)
    (hmem : t ∈ tasks) (h : t.complete = "Yes" ∨ t.complete = "No") :
    toggle_status (toggle_status t.complete) = t.complete := by
  rcases h with h | h <;> rw [h] <;> decide

/-- Witness for `toggle_twice_restores_status` on the concrete incomplete
task `task1`. -/
theorem toggle_twice_restores_status_witness :
    toggle_status (toggle_status task1.complete) = task1.complete :=
  toggle_twice_restores_status [task1] task1 (by decide) (by decide)

/-! ### Claim C9 -/

/-- Claim C9: on any user file, an unknown username (no 3-field line
carries it) and a known username with a wrong password (some 3-field line
carries the username but none matches both fields) produce the **same**
login result, namely the single invalid-credentials failure message — the
two failure causes are observationally indistinguishable. -/
theorem login_failure_indistinguishable (lines : List String)
    (u1 p1 u2 p2 : String)
    (h1 : ∀ l ∈ lines, line_matches_user u1 l = false)
    (h2 : ∃ l ∈ lines, line_matches_user u2 l = true)
    (h3 : ∀ l ∈ lines, line_matches_login u2 p2 l = false) :
    login_user u1 p1 lines = .failure invalidLoginMsg ∧
    login_user u2 p2 lines = .failure invalidLoginMsg ∧
    login_user u1 p1 lines = login_user u2 p2 lines := by
  have e1 : login_user u1 p1 lines = .failure invalidLoginMsg :=
    login_fails_of_no_match u1 p1 lines
      (fun l hl => no_user_match_no_login_match u1 p1 l (h1 l hl))
  have e2 : login_user u2 p2 lines = .failure invalidLoginMsg :=
    login_fails_of_no_match u2 p2 lines h3
  exact ⟨e1, e2, by rw [e1, e2]⟩

/-- Witness for `login_failure_indistinguishable` on a one-user file:
unknown user "bob" and known user "alice" with a wrong password get the
same result. -/
theorem login_failure_indistinguishable_witness :
    login_user "bob" "pw" ["alice, secret1, Admin"] =
      login_user "alice" "wrong" ["alice, secret1, Admin"] :=
  (login_failure_indistinguishable ["alice, secret1, Admin"]
    "bob" "pw" "alice" "wrong" (by decide) (by decide) (by decide)).2.2

/-! ### Claim C10 -/

/-- Claim C10: when the identifier matches no task (no task's id equals
it, and — for delete, which also matches titles — no task's title equals
it), mark-complete, reset-incomplete and delete each report not-found
(`found = false`, respectively `not_found_reported = true`) and leave the
stored record set exactly as it was: no write occurs. -/
theorem not_found_leaves_store_unchanged (tasks : List Task) (ident : String)
    (h : ∀ t ∈ tasks, t.id ≠ ident ∧ t.title ≠ ident) :
    update_task_complete_op tasks ident = (false, tasks)
    ∧ reset_task_incomplete_op tasks ident = ⟨tasks, [], true⟩
    ∧ delete_task_op tasks ident = (false, tasks) := by
  have hid : ∀ t ∈ tasks, t.id ≠ ident := fun t ht => (h t ht).1
  refine ⟨?_, ?_, ?_⟩
  · unfold update_task_complete_op
    rw [update_scan_not_found ident tasks hid]
    rfl
  · unfold reset_task_incomplete_op
    rw [reset_scan_not_found ident tasks hid]
    rfl
  · unfold delete_task_op
    rw [delete_scan_not_found ident tasks h]
    rfl

/-- Witness for `not_found_leaves_store_unchanged` at the one-task store
and the unmatched identifier "9". -/
theorem not_found_leaves_store_unchanged_witness :
    update_task_complete_op [task1] "9" = (false, [task1]) ∧
    reset_task_incomplete_op [task1] "9" = ⟨[task1], [], true⟩ ∧
    delete_task_op [task1] "9" = (false, [task1]) :=
  not_found_leaves_store_unchanged [task1] "9" (by decide)

end TaskManager
